import Mathlib

/-!
Verification of the bathygrid core (`bathygrid/bgrid.py`): depth-banded
resolution selection, mean-depth bookkeeping, serial and parallel gridding
dispatch, container removal, layer access and metadata update.

Numeric point/depth/resolution values are modelled as rationals; Python
dictionaries as association lists; raised exceptions as `Except`/`Option`
faults.  External collaborators of the grid (the Tile abstraction, the base
lattice, the dask client) are not part of `bgrid.py`; where a claim depends
on them they are modelled from the spec and marked as such.
-/

namespace Bathygrid

/-- Fault taxonomy of the spec (section 7), together with the Python
exception classes that `bgrid.py` actually raises (`TypeError`, `KeyError`,
`IndexError`).  The `ValueError` raised by `_calculate_resolution` when
`mean_depth is None` is the spec's `UndefinedDepthFault`; the `ValueError`
raised by layer access without a resolution is `AmbiguousResolutionFault`;
the `ValueError` raised on a coordinate-system or vertical-reference mismatch
is `MetadataConflictFault`. -/
inductive Fault where
  | undefinedDepth
  | emptyGrid
  | ambiguousResolution
  | metadataConflict
  | typeError
  | keyError
  | indexError
  deriving DecidableEq

/-- The module-level table of `bgrid.py` line 13: maximum depth threshold
paired with the resolution that applies, in ascending threshold order. -/
def depth_resolution_lookup : List (ℚ × ℚ) :=
  [(20, 0.5), (40, 1.0), (60, 2.0), (80, 4.0), (160, 8.0), (320, 16.0), (640, 32.0),
   (1280, 64.0), (2560, 128.0), (5120, 256.0), (10240, 512.0), (20480, 1024.0)]

/-- The keys of the lookup table, in insertion order, as in
`list(depth_resolution_lookup.keys())` (line 99). -/
def dpth_keys : List ℚ := depth_resolution_lookup.map Prod.fst

/-- Index of the first `true` in a boolean list, if any. -/
def firstTrueIdx : List Bool → Option ℕ
  | [] => none
  | true :: _ => some 0
  | false :: rest => (firstTrueIdx rest).map (fun i => i + 1)

/-- `np.argmax` on a boolean array: index of the first `True`, and `0` when
every entry is `False` (numpy returns the first index of the maximum value;
over an all-`False` array the maximum is `False` at index 0). -/
def np_argmax_bool (l : List Bool) : ℕ := (firstTrueIdx l).getD 0

/-- Python dict lookup `m[key]` on the resolution table: first entry whose
key equals the requested one, `None`/`KeyError` when absent. -/
def dict_lookup (m : List (ℚ × ℚ)) (k : ℚ) : Option ℚ :=
  match m with
  | [] => none
  | p :: rest => if p.1 = k then some p.2 else dict_lookup rest k

/-- `BathyGrid._calculate_resolution` (lines 86-102): fails when
`mean_depth` is `None`, otherwise takes
`range_index = np.argmax((np.array(dpth_keys) - mean_depth) > 0)` and
returns `depth_resolution_lookup[dpth_keys[range_index]]`. -/
def calculate_resolution (mean_depth : Option ℚ) : Except Fault ℚ :=
  match mean_depth with
  | none => .error .undefinedDepth
  | some d =>
    let range_index := np_argmax_bool (dpth_keys.map (fun k => decide (k - d > 0)))
    match dict_lookup depth_resolution_lookup (dpth_keys.getD range_index 0) with
    | some res => .ok res
    | none => .error .keyError

/-- Closed form of `calculate_resolution` on a defined mean depth, used as a
stepping stone in the proofs: the band boundaries are half-open, and every
depth at or beyond the deepest threshold falls back to the first table entry
(the all-false `argmax` defaults to index 0). -/
def resolution_band (d : ℚ) : ℚ :=
  if d < 20 then 0.5 else if d < 40 then 1.0 else if d < 60 then 2.0 else if d < 80 then 4.0
  else if d < 160 then 8.0 else if d < 320 then 16.0 else if d < 640 then 32.0
  else if d < 1280 then 64.0 else if d < 2560 then 128.0 else if d < 5120 then 256.0
  else if d < 10240 then 512.0 else if d < 20480 then 1024.0 else 0.5

/-- The staged raw point batch, as far as `_update_mean_depth` inspects it:
the depth column is present or absent; when present it is the list of `z`
values.  Accessing an absent column of a numpy structured array raises
`KeyError`. -/
structure PointData where
  z : Option (List ℚ)

/-- `BathyGrid._update_mean_depth` (lines 76-84): sets `mean_depth` to
`None` when `self.data is None` or `not self.data['z'].any()` (i.e. every
`z` value equals zero, in particular when the batch is empty), otherwise to
`self.data['z'].mean()`.  Accessing `self.data['z']` when the batch has no
`z` column raises `KeyError`. -/
def update_mean_depth (data : Option PointData) : Except Fault (Option ℚ) :=
  match data with
  | none => .ok none
  | some d =>
    match d.z with
    | none => .error .keyError
    | some zs =>
      if zs.any (fun z => decide (z ≠ 0)) then .ok (some (zs.sum / (zs.length : ℚ)))
      else .ok none

/-- One step of the batching loop of `BathyGrid._grid_parallel`
(lines 409-428): walk the flattened tile slots, skip empty slots, append
each occupied slot to `data_for_workers`, and flush a batch to the workers
whenever `chunk_index` reaches `chunks_at_a_time` (which the code sets to
`len(self.client.ncores())`, the worker-core count); the trailing
`if data_for_workers:` flushes the final partial batch. -/
def grid_parallel_go {α : Type} (chunks_at_a_time : ℕ) :
    List (Option α) → List α → ℕ → List (List α)
  | [], data_for_workers, _ =>
    if data_for_workers.isEmpty then [] else [data_for_workers]
  | none :: rest, data_for_workers, chunk_index =>
    grid_parallel_go chunks_at_a_time rest data_for_workers chunk_index
  | some tile :: rest, data_for_workers, chunk_index =>
    let data' := data_for_workers ++ [tile]
    if chunk_index + 1 = chunks_at_a_time then
      data' :: grid_parallel_go chunks_at_a_time rest [] 0
    else
      grid_parallel_go chunks_at_a_time rest data' (chunk_index + 1)

/-- The batches of occupied slots that `BathyGrid._grid_parallel` scatters
to the dask workers, in submission order. -/
def grid_parallel_batches {α : Type} (tiles : List (Option α)) (chunks_at_a_time : ℕ) :
    List (List α) :=
  grid_parallel_go chunks_at_a_time tiles [] 0

/-- `total_runs = int(np.ceil(len(self.tiles.flat) / 8))` (line 405): the
figure printed in the progress messages.  Note it divides the number of ALL
slots (occupied or not) by the constant 8. -/
def total_runs {α : Type} (tiles : List (Option α)) : ℕ := (tiles.length + 7) / 8

/-- Modelled from the spec: the spec's parallel-mode batching rule,
"partition occupied slots into fixed-size batches (`size` per batch)" taken
at its words — consecutive chunks of the occupied-slot list, the last chunk
possibly shorter. -/
def spec_batches_of {α : Type} (size : ℕ) : List α → List (List α)
  | [] => []
  | a :: rest => (a :: rest.take (size - 1)) :: spec_batches_of size (rest.drop (size - 1))
  termination_by l => l.length
  decreasing_by simp [List.length_drop]; omega

/-- `np.sort(np.unique(x))` on a list of resolutions: distinct values in
ascending order. -/
def np_sort_unique (l : List ℚ) : List ℚ := List.insertionSort (fun a b => a ≤ b) l.dedup

/-- The loop of `BathyGrid._grid_regular` (lines 377-382), with the external
`Tile.grid` operation abstracted as `tile_grid` (modelled from the spec,
section 6: `grid(algorithm, resolution, clear_existing) -> resolution_used`,
where the reported resolution may differ from the requested one).  Returns
the accumulated `self.resolutions` list and the trace of
`(algorithm, resolution, clear_existing)` argument triples passed to the
occupied slots, in visit order.  Note the source rebinds the loop variable:
`resolution = tile.grid(algorithm, resolution, clear_existing=...)`. -/
def grid_regular_go {α : Type} (tile_grid : α → String → ℚ → Bool → ℚ) (algorithm : String)
    (clear_existing : Bool) :
    List (Option α) → ℚ → List ℚ → List ℚ × List (String × ℚ × Bool)
  | [], _, resolutions => (resolutions, [])
  | none :: rest, resolution, resolutions =>
    grid_regular_go tile_grid algorithm clear_existing rest resolution resolutions
  | some tile :: rest, resolution, resolutions =>
    let reported := tile_grid tile algorithm resolution clear_existing
    let resolutions' := if reported ∈ resolutions then resolutions else resolutions ++ [reported]
    let next := grid_regular_go tile_grid algorithm clear_existing rest reported resolutions'
    (next.1, (algorithm, resolution, clear_existing) :: next.2)

/-- `BathyGrid._grid_regular` (lines 363-383): reset `self.resolutions`,
visit the flattened slots in order, grid each occupied one, collect the
distinct reported resolutions and finally `np.sort(np.unique(...))` them.
The second component is the trace of argument triples actually passed to
the slots' grid operations. -/
def grid_regular {α : Type} (tiles : List (Option α)) (tile_grid : α → String → ℚ → Bool → ℚ)
    (algorithm : String) (resolution : ℚ) (clear_existing : Bool) :
    List ℚ × List (String × ℚ × Bool) :=
  let r := grid_regular_go tile_grid algorithm clear_existing tiles resolution []
  (np_sort_unique r.1, r.2)

/-- Modelled from the spec: the chained call trace that the source's
rebinding of `resolution` produces — the first occupied slot is invoked with
the passed resolution, and each later occupied slot with the resolution the
previous one reported. -/
def spec_chained_calls {α : Type} (tile_grid : α → String → ℚ → Bool → ℚ) (algorithm : String)
    (clear_existing : Bool) : List α → ℚ → List (String × ℚ × Bool)
  | [], _ => []
  | tile :: rest, resolution =>
    (algorithm, resolution, clear_existing) ::
      spec_chained_calls tile_grid algorithm clear_existing rest
        (tile_grid tile algorithm resolution clear_existing)

/-- Modelled from the spec: `Tile.remove_points(container_name)`
(section 6), the removal operation of a LEAF occupant (an `SRTile`, which
lives outside `src/`).  A leaf tile is represented by the multiset of
container names it holds points for; removal drops that container's
points.  A NESTED occupant (the `BathyGrid` slots of a `VRGridTile`) is
src code and is modelled separately below by `vslot_remove_points`
dispatching to `remove_points` itself. -/
def tile_remove_points (tile : List String) (container_name : String) : List String :=
  tile.filter (fun c => c != container_name)

/-- Modelled from the spec: `Tile.is_empty` (section 6) for a LEAF
occupant — a tile left with zero points for every registered container is
empty. -/
def tile_is_empty (tile : List String) : Bool := tile.isEmpty

/-- The grid state that `BathyGrid.remove_points` manipulates when every
occupied slot is a leaf tile: the container registry (only its keys matter
here) and the lattice of tile slots (`None` when the lattice is
unallocated; each slot empty or holding a tile).  This is the shape of an
`SRGrid` — and equally of each NESTED `BathyGrid` inside a `VRGridTile`,
whose slots are plain `SRTile`s (`BathyGrid._build_tile`, line 121). -/
structure RGrid where
  container : List String
  tiles : Option (List (Option (List String)))
  deriving DecidableEq

/-- Modelled from the spec: `BaseGrid.is_empty` (sections 3 and 6) — the
grid is empty when the lattice is unallocated or every slot is null. -/
def rgrid_is_empty (g : RGrid) : Bool :=
  match g.tiles with
  | none => true
  | some l => l.all (fun slot => slot.isNone)

/-- The body of the per-tile loop of `BathyGrid.remove_points`
(lines 287-291): forward the removal to an occupied slot and null it if it
is left empty. -/
def remove_slot (slot : Option (List String)) (container_name : String) : Option (List String) :=
  match slot with
  | none => none
  | some tile =>
    let tile' := tile_remove_points tile container_name
    if tile_is_empty tile' then none else some tile'

/-- `BathyGrid.remove_points` (lines 272-293), for a grid whose occupied
slots are leaf tiles: no-op when the name is not in the container registry;
otherwise pop the registry entry, and (unless the grid is already empty)
forward the removal to every occupied slot, nulling slots left empty;
finally, if the grid has become empty, release the lattice
(`self.tiles = None`).  This single src function serves both as the
`SRGrid` top level and, below, as the removal operation of each nested
`BathyGrid` slot of a `VRGridTile`. -/
def remove_points (g : RGrid) (container_name : String) : RGrid :=
  if container_name ∈ g.container then
    let g1 : RGrid := RGrid.mk (g.container.erase container_name) g.tiles
    let g2 : RGrid :=
      if !rgrid_is_empty g1 then
        RGrid.mk g1.container
          (g1.tiles.map (fun l => l.map (fun slot => remove_slot slot container_name)))
      else g1
    if rgrid_is_empty g2 then RGrid.mk g2.container none else g2
  else g

/-- A slot occupant of a top-level grid, polymorphic as in the source: a
LEAF `SRTile` (holding points per container, spec-modelled interface) or a
NESTED `BathyGrid` (the `VRGridTile` case, `VRGridTile._build_tile`,
lines 651-670) with its own container registry and its own lattice of leaf
slots.  A nested grid's registry is never populated in reachable states:
its points arrive through `BathyGrid.add_points`, whose
`_update_metadata` is the base-class `pass` (lines 152-157). -/
inductive VSlot where
  | leaf (tile : List String)
  | nested (container : List String) (tiles : Option (List (Option (List String))))
  deriving DecidableEq

/-- The dynamic dispatch of `tile.remove_points(container_name)` in the
loop of `BathyGrid.remove_points` (line 289): a leaf `SRTile` drops that
container's points (spec-modelled), while a nested `BathyGrid` runs the
src `remove_points` above — which no-ops when the name is missing from the
NESTED registry. -/
def vslot_remove_points (slot : VSlot) (container_name : String) : VSlot :=
  match slot with
  | .leaf tile => .leaf (tile_remove_points tile container_name)
  | .nested c t =>
    let g' := remove_points (RGrid.mk c t) container_name
    .nested g'.container g'.tiles

/-- The dynamic dispatch of `tile.is_empty` (line 290): spec-modelled
`Tile.is_empty` for a leaf, and `BaseGrid.is_empty` (lattice unallocated or
every slot null, spec sections 3 and 6) for a nested grid. -/
def vslot_is_empty (slot : VSlot) : Bool :=
  match slot with
  | .leaf tile => tile_is_empty tile
  | .nested c t => rgrid_is_empty (RGrid.mk c t)

/-- The state of a top-level grid whose slot occupants may be leaf tiles or
nested grids — the general shape of `BathyGrid.remove_points`'s receiver
(`SRGrid` when all occupants are leaves, `VRGridTile` when they are nested
grids). -/
structure VGrid where
  container : List String
  tiles : Option (List (Option VSlot))
  deriving DecidableEq

/-- Modelled from the spec: `BaseGrid.is_empty` at the top level (sections
3 and 6) — the grid is empty when the lattice is unallocated or every slot
is null. -/
def vgrid_is_empty (g : VGrid) : Bool :=
  match g.tiles with
  | none => true
  | some l => l.all (fun slot => slot.isNone)

/-- The body of the per-tile loop of `BathyGrid.remove_points`
(lines 287-291) over polymorphic slots: forward the removal to an occupied
slot and null it if it is left empty. -/
def v_remove_slot (slot : Option VSlot) (container_name : String) : Option VSlot :=
  match slot with
  | none => none
  | some s =>
    let s' := vslot_remove_points s container_name
    if vslot_is_empty s' then none else some s'

/-- `BathyGrid.remove_points` (lines 272-293) over polymorphic slots: the
same algorithm as `remove_points`, with the per-slot removal and emptiness
checks dispatched on the occupant kind. -/
def v_remove_points (g : VGrid) (container_name : String) : VGrid :=
  if container_name ∈ g.container then
    let g1 : VGrid := VGrid.mk (g.container.erase container_name) g.tiles
    let g2 : VGrid :=
      if !vgrid_is_empty g1 then
        VGrid.mk g1.container
          (g1.tiles.map (fun l => l.map (fun slot => v_remove_slot slot container_name)))
      else g1
    if vgrid_is_empty g2 then VGrid.mk g2.container none else g2
  else g

/-- Modelled from the spec: the `cells` attribute of a leaf tile (section 6,
"`cells` (layer-name → array mapping)"); only the keys matter here. -/
structure LTile where
  cells : List String
  deriving DecidableEq

/-- The grid state inspected by `no_grid`, layer access and
`return_layer_names`: the lattice of leaf (SRTile) slots and the
`self.resolutions` list.  (The `isinstance(tile, BathyGrid)` branch of
`no_grid`, reached only for the nested grids of a `VRGridTile`, is outside
the scope of the claims modelled here, which concern leaf-tiled grids.) -/
structure LGrid where
  tiles : Option (List (Option LTile))
  resolutions : List ℚ
  deriving DecidableEq

/-- `BathyGrid.no_grid` (lines 50-74), restricted to leaf tiles, as the
truth value it carries where it is tested: `True` when the lattice is
unallocated; otherwise the method returns on the FIRST occupied slot,
`True` when that slot's `cells` mapping is empty and `False` when it is
not; when no slot is occupied the method falls through and returns `None`,
which is falsy at every use site. -/
def no_grid (g : LGrid) : Bool :=
  match g.tiles with
  | none => true
  | some l =>
    match (l.filterMap id).head? with
    | some tile => tile.cells.isEmpty
    | none => false

/-- Python truthiness of the optional `resolution` argument: `if not
resolution:` is taken both when the argument is omitted (`None`) and when
it is numerically zero. -/
def py_falsy_res (resolution : Option ℚ) : Bool :=
  match resolution with
  | none => true
  | some r => r == 0

/-- The resolution-selection prologue of `BathyGrid.get_layer_by_name`
(lines 313-318): fail with `EmptyGridFault` when `no_grid`; when the
`resolution` argument is falsy, fail with `AmbiguousResolutionFault` if
more than one resolution exists, else fall back to `self.resolutions[0]`
(an `IndexError` when that list is empty); otherwise use the argument. -/
def get_layer_by_name_resolution (g : LGrid) (resolution : Option ℚ) : Except Fault ℚ :=
  if no_grid g then .error .emptyGrid
  else if py_falsy_res resolution then
    if 1 < g.resolutions.length then .error .ambiguousResolution
    else
      match g.resolutions with
      | [] => .error .indexError
      | r :: _ => .ok r
  else .ok (resolution.getD 0)

/-- The resolution-fault behavior of `BathyGrid.return_surf_xyz`
(lines 542-548): first the prologue of lines 542-547, textually identical
to that of `get_layer_by_name`, resolves the resolution used for the
coordinate vectors; then line 548 calls `self.get_layer_trimmed(layer)`
WITHOUT forwarding the resolution argument, so `get_layer_trimmed`'s
default `resolution=None` (line 330) reaches `get_layer_by_name(layer,
None)` (line 351), whose own checks run again with an omitted resolution
and re-raise `AmbiguousResolutionFault` whenever more than one resolution
exists.  Returns the resolution the prologue selected, or the first fault
raised; the raster assembly and trimming after the inner resolution checks
are outside the scope of the resolution-fault claims modelled here. -/
def return_surf_xyz_resolution (g : LGrid) (resolution : Option ℚ) : Except Fault ℚ :=
  if no_grid g then .error .emptyGrid
  else if py_falsy_res resolution then
    if 1 < g.resolutions.length then .error .ambiguousResolution
    else
      match g.resolutions with
      | [] => .error .indexError
      | r :: _ =>
        match get_layer_by_name_resolution g none with
        | .error e => .error e
        | .ok _ => .ok r
  else
    match get_layer_by_name_resolution g none with
    | .error e => .error e
    | .ok _ => .ok (resolution.getD 0)

/-- `BathyGrid.return_layer_names` (lines 484-498): return `[]` when
`no_grid` is truthy; otherwise return, for the first occupied slot,
`list(tile.cells.keys)` — `keys` without parentheses is a bound method, so
`list(...)` raises `TypeError: 'builtin_function_or_method' object is not
iterable`; with no occupied slot the loop falls through to `return []`. -/
def return_layer_names (g : LGrid) : Except Fault (List String) :=
  if no_grid g then .ok []
  else
    match g.tiles with
    | none => .ok []
    | some l =>
      match (l.filterMap id).head? with
      | some _ => .error .typeError
      | none => .ok []

/-- Python truthiness of the stored `self.epsg` (an optional int): `None`
and `0` are falsy. -/
def py_truthy_int (v : Option Int) : Bool :=
  match v with
  | none => false
  | some n => n != 0

/-- Python truthiness of the stored `self.vertical_reference` (an optional
string): `None` and the empty string are falsy. -/
def py_truthy_str (s : Option String) : Bool :=
  match s with
  | none => false
  | some s => s != ""

/-- Python truthiness of the `file_list` argument: `None` and `[]` are
falsy. -/
def py_truthy_file_list (l : Option (List String)) : Bool :=
  match l with
  | none => false
  | some l => !l.isEmpty

/-- `int(epsg)` on the optional epsg argument: `int(None)` raises
`TypeError`.  (A proj4 string argument, which would raise `ValueError`
inside `int`, is outside the scope of the claims and not modelled.) -/
def py_int (v : Option Int) : Except Fault Int :=
  match v with
  | none => .error .typeError
  | some n => .ok n

/-- The metadata state that `SRGrid._update_metadata` manipulates: the
container registry (name → file list), the epsg code and the vertical
reference. -/
structure MetaState where
  container : List (String × List String)
  epsg : Option Int
  vertical_reference : Option String
  deriving DecidableEq

/-- Python dict assignment `m[k] = v`: update the first (only) entry with
that key in place, preserving insertion order, else append a new entry at
the end. -/
def dict_set (m : List (String × List String)) (k : String) (v : List String) :
    List (String × List String) :=
  match m with
  | [] => [(k, v)]
  | p :: rest => if p.1 = k then (k, v) :: rest else p :: dict_set rest k v

/-- `SRGrid._update_metadata` (lines 583-614): FIRST store the registry
entry `self.container[container_name] = file_list` (or `['Unknown']` when
`file_list` is falsy), THEN check the coordinate-system conflict
`self.epsg and (self.epsg != int(epsg))` — `int(epsg)` is evaluated inside
the check only when `self.epsg` is truthy — then the vertical-reference
conflict `self.vertical_reference and (self.vertical_reference !=
vertical_reference)`, and finally perform the assignments
`self.epsg = int(epsg)` (evaluating `int(epsg)` again) and
`self.vertical_reference = vertical_reference`.  The second component
records the exception raised, if any; the first component is the state
left behind at that point. -/
def sr_update_metadata (st : MetaState) (container_name : String)
    (file_list : Option (List String)) (epsg : Option Int)
    (vertical_reference : Option String) : MetaState × Option Fault :=
  let st1 : MetaState := MetaState.mk
    (dict_set st.container container_name
      (if py_truthy_file_list file_list then file_list.getD [] else ["Unknown"]))
    st.epsg st.vertical_reference
  if py_truthy_int st.epsg then
    match py_int epsg with
    | .error e => (st1, some e)
    | .ok e =>
      if st.epsg ≠ some e then (st1, some .metadataConflict)
      else
        if py_truthy_str st.vertical_reference = true ∧
            st.vertical_reference ≠ vertical_reference then
          (st1, some .metadataConflict)
        else
          match py_int epsg with
          | .error e2 => (st1, some e2)
          | .ok e2 => (MetaState.mk st1.container (some e2) vertical_reference, none)
  else
    if py_truthy_str st.vertical_reference = true ∧
        st.vertical_reference ≠ vertical_reference then
      (st1, some .metadataConflict)
    else
      match py_int epsg with
      | .error e2 => (st1, some e2)
      | .ok e2 => (MetaState.mk st1.container (some e2) vertical_reference, none)


/-! ## Theorems -/

theorem decide_band_true {d k : ℚ} (h : d < k) : decide (k - d > 0) = true :=
  decide_eq_true (by linarith)

theorem decide_band_false {d k : ℚ} (h : k ≤ d) : decide (k - d > 0) = false :=
  decide_eq_false (by intro hc; linarith)

/-- Closed-form evaluation of the resolution selector on a defined mean
depth: half-open depth bands, with every depth at or beyond 20480 falling
back to the FIRST table entry (0.5), because the all-false argmax defaults
to index 0. -/
theorem calculate_resolution_eval (d : ℚ) :
    calculate_resolution (some d) = .ok (resolution_band d) := by
  simp only [calculate_resolution, dpth_keys, depth_resolution_lookup, List.map_cons,
    List.map_nil, resolution_band]
  by_cases h1 : d < 20
  · rw [decide_band_true h1, if_pos h1]
    norm_num [np_argmax_bool, firstTrueIdx, List.getD, dict_lookup]
  · rw [decide_band_false (le_of_not_lt h1), if_neg h1]
    by_cases h2 : d < 40
    · rw [decide_band_true h2, if_pos h2]
      norm_num [np_argmax_bool, firstTrueIdx, List.getD, dict_lookup]
    · rw [decide_band_false (le_of_not_lt h2), if_neg h2]
      by_cases h3 : d < 60
      · rw [decide_band_true h3, if_pos h3]
        norm_num [np_argmax_bool, firstTrueIdx, List.getD, dict_lookup]
      · rw [decide_band_false (le_of_not_lt h3), if_neg h3]
        by_cases h4 : d < 80
        · rw [decide_band_true h4, if_pos h4]
          norm_num [np_argmax_bool, firstTrueIdx, List.getD, dict_lookup]
        · rw [decide_band_false (le_of_not_lt h4), if_neg h4]
          by_cases h5 : d < 160
          · rw [decide_band_true h5, if_pos h5]
            norm_num [np_argmax_bool, firstTrueIdx, List.getD, dict_lookup]
          · rw [decide_band_false (le_of_not_lt h5), if_neg h5]
            by_cases h6 : d < 320
            · rw [decide_band_true h6, if_pos h6]
              norm_num [np_argmax_bool, firstTrueIdx, List.getD, dict_lookup]
            · rw [decide_band_false (le_of_not_lt h6), if_neg h6]
              by_cases h7 : d < 640
              · rw [decide_band_true h7, if_pos h7]
                norm_num [np_argmax_bool, firstTrueIdx, List.getD, dict_lookup]
              · rw [decide_band_false (le_of_not_lt h7), if_neg h7]
                by_cases h8 : d < 1280
                · rw [decide_band_true h8, if_pos h8]
                  norm_num [np_argmax_bool, firstTrueIdx, List.getD, dict_lookup]
                · rw [decide_band_false (le_of_not_lt h8), if_neg h8]
                  by_cases h9 : d < 2560
                  · rw [decide_band_true h9, if_pos h9]
                    norm_num [np_argmax_bool, firstTrueIdx, List.getD, dict_lookup]
                  · rw [decide_band_false (le_of_not_lt h9), if_neg h9]
                    by_cases h10 : d < 5120
                    · rw [decide_band_true h10, if_pos h10]
                      norm_num [np_argmax_bool, firstTrueIdx, List.getD, dict_lookup]
                    · rw [decide_band_false (le_of_not_lt h10), if_neg h10]
                      by_cases h11 : d < 10240
                      · rw [decide_band_true h11, if_pos h11]
                        norm_num [np_argmax_bool, firstTrueIdx, List.getD, dict_lookup]
                      · rw [decide_band_false (le_of_not_lt h11), if_neg h11]
                        by_cases h12 : d < 20480
                        · rw [decide_band_true h12, if_pos h12]
                          norm_num [np_argmax_bool, firstTrueIdx, List.getD, dict_lookup]
                        · rw [decide_band_false (le_of_not_lt h12), if_neg h12]
                          norm_num [np_argmax_bool, firstTrueIdx, List.getD, dict_lookup]

/-- Claim C1 (amended): for every defined mean depth strictly below the
largest table threshold 20480, resolution selection returns the resolution
paired with the smallest table threshold strictly greater than the mean
depth, and an undefined mean depth fails with UndefinedDepthFault.  (The
claim's universal version over ALL defined depths fails at depths at or
beyond 20480, see the counterexample.) -/
theorem c1_resolution_selection :
    calculate_resolution none = .error .undefinedDepth ∧
    ∀ d : ℚ, d < 20480 →
      ∃ k r, (k, r) ∈ depth_resolution_lookup ∧ d < k ∧
        (∀ p ∈ depth_resolution_lookup, d < p.1 → k ≤ p.1) ∧
        calculate_resolution (some d) = .ok r := by
  refine ⟨rfl, ?_⟩
  intro d hd
  by_cases h1 : d < 20
  · refine ⟨20, 0.5, by norm_num [depth_resolution_lookup], h1, ?_, ?_⟩
    · intro p hp hlt
      fin_cases hp <;> norm_num at hlt ⊢ <;> linarith
    · rw [calculate_resolution_eval]
      simp only [resolution_band]
      rw [if_pos h1]
  ·
    by_cases h2 : d < 40
    · refine ⟨40, 1.0, by norm_num [depth_resolution_lookup], h2, ?_, ?_⟩
      · intro p hp hlt
        fin_cases hp <;> norm_num at hlt ⊢ <;> linarith
      · rw [calculate_resolution_eval]
        simp only [resolution_band]
        rw [if_neg h1, if_pos h2]
    ·
      by_cases h3 : d < 60
      · refine ⟨60, 2.0, by norm_num [depth_resolution_lookup], h3, ?_, ?_⟩
        · intro p hp hlt
          fin_cases hp <;> norm_num at hlt ⊢ <;> linarith
        · rw [calculate_resolution_eval]
          simp only [resolution_band]
          rw [if_neg h1, if_neg h2, if_pos h3]
      ·
        by_cases h4 : d < 80
        · refine ⟨80, 4.0, by norm_num [depth_resolution_lookup], h4, ?_, ?_⟩
          · intro p hp hlt
            fin_cases hp <;> norm_num at hlt ⊢ <;> linarith
          · rw [calculate_resolution_eval]
            simp only [resolution_band]
            rw [if_neg h1, if_neg h2, if_neg h3, if_pos h4]
        ·
          by_cases h5 : d < 160
          · refine ⟨160, 8.0, by norm_num [depth_resolution_lookup], h5, ?_, ?_⟩
            · intro p hp hlt
              fin_cases hp <;> norm_num at hlt ⊢ <;> linarith
            · rw [calculate_resolution_eval]
              simp only [resolution_band]
              rw [if_neg h1, if_neg h2, if_neg h3, if_neg h4, if_pos h5]
          ·
            by_cases h6 : d < 320
            · refine ⟨320, 16.0, by norm_num [depth_resolution_lookup], h6, ?_, ?_⟩
              · intro p hp hlt
                fin_cases hp <;> norm_num at hlt ⊢ <;> linarith
              · rw [calculate_resolution_eval]
                simp only [resolution_band]
                rw [if_neg h1, if_neg h2, if_neg h3, if_neg h4, if_neg h5, if_pos h6]
            ·
              by_cases h7 : d < 640
              · refine ⟨640, 32.0, by norm_num [depth_resolution_lookup], h7, ?_, ?_⟩
                · intro p hp hlt
                  fin_cases hp <;> norm_num at hlt ⊢ <;> linarith
                · rw [calculate_resolution_eval]
                  simp only [resolution_band]
                  rw [if_neg h1, if_neg h2, if_neg h3, if_neg h4, if_neg h5, if_neg h6, if_pos h7]
              ·
                by_cases h8 : d < 1280
                · refine ⟨1280, 64.0, by norm_num [depth_resolution_lookup], h8, ?_, ?_⟩
                  · intro p hp hlt
                    fin_cases hp <;> norm_num at hlt ⊢ <;> linarith
                  · rw [calculate_resolution_eval]
                    simp only [resolution_band]
                    rw [if_neg h1, if_neg h2, if_neg h3, if_neg h4, if_neg h5, if_neg h6, if_neg h7, if_pos h8]
                ·
                  by_cases h9 : d < 2560
                  · refine ⟨2560, 128.0, by norm_num [depth_resolution_lookup], h9, ?_, ?_⟩
                    · intro p hp hlt
                      fin_cases hp <;> norm_num at hlt ⊢ <;> linarith
                    · rw [calculate_resolution_eval]
                      simp only [resolution_band]
                      rw [if_neg h1, if_neg h2, if_neg h3, if_neg h4, if_neg h5, if_neg h6, if_neg h7, if_neg h8, if_pos h9]
                  ·
                    by_cases h10 : d < 5120
                    · refine ⟨5120, 256.0, by norm_num [depth_resolution_lookup], h10, ?_, ?_⟩
                      · intro p hp hlt
                        fin_cases hp <;> norm_num at hlt ⊢ <;> linarith
                      · rw [calculate_resolution_eval]
                        simp only [resolution_band]
                        rw [if_neg h1, if_neg h2, if_neg h3, if_neg h4, if_neg h5, if_neg h6, if_neg h7, if_neg h8, if_neg h9, if_pos h10]
                    ·
                      by_cases h11 : d < 10240
                      · refine ⟨10240, 512.0, by norm_num [depth_resolution_lookup], h11, ?_, ?_⟩
                        · intro p hp hlt
                          fin_cases hp <;> norm_num at hlt ⊢ <;> linarith
                        · rw [calculate_resolution_eval]
                          simp only [resolution_band]
                          rw [if_neg h1, if_neg h2, if_neg h3, if_neg h4, if_neg h5, if_neg h6, if_neg h7, if_neg h8, if_neg h9, if_neg h10, if_pos h11]
                      ·
                        have h12 : d < 20480 := hd
                        refine ⟨20480, 1024.0, by norm_num [depth_resolution_lookup], h12, ?_, ?_⟩
                        · intro p hp hlt
                          fin_cases hp <;> norm_num at hlt ⊢ <;> linarith
                        · rw [calculate_resolution_eval]
                          simp only [resolution_band]
                          rw [if_neg h1, if_neg h2, if_neg h3, if_neg h4, if_neg h5, if_neg h6, if_neg h7, if_neg h8, if_neg h9, if_neg h10, if_neg h11, if_pos h12]

/-- Witness for C1 at mean depth 25: the selected threshold is 40 and the
resolution 1.0. -/
theorem c1_resolution_selection_witness :
    (25 : ℚ) < 20480 ∧
    ∃ k r, (k, r) ∈ depth_resolution_lookup ∧ (25 : ℚ) < k ∧
      (∀ p ∈ depth_resolution_lookup, (25 : ℚ) < p.1 → k ≤ p.1) ∧
      calculate_resolution (some 25) = .ok r :=
  ⟨by norm_num, c1_resolution_selection.2 25 (by norm_num)⟩

/-- Counterexample to C1 as stated: at mean depth 20480 no table threshold
is strictly greater than the mean depth, yet the selector does not fail —
it silently returns 0.5, which is paired with threshold 20, not with any
threshold greater than 20480. -/
theorem c1_counterexample :
    calculate_resolution (some 20480) = .ok 0.5 ∧
    ∀ p ∈ depth_resolution_lookup, ¬ ((20480 : ℚ) < p.1) := by
  constructor
  · rw [calculate_resolution_eval]
    norm_num [resolution_band]
  · intro p hp
    fin_cases hp <;> norm_num

/-- Claim C7 (amended): for every mean depth at or beyond the largest table
threshold 20480 the selector does NOT clamp — the index-of-first-match
search over an all-false condition defaults to index 0 and the selector
silently returns the finest resolution 0.5. -/
theorem c7_deep_depth_returns_finest (d : ℚ) (h : 20480 ≤ d) :
    calculate_resolution (some d) = .ok 0.5 := by
  rw [calculate_resolution_eval]
  simp only [resolution_band]
  rw [if_neg (not_lt.mpr (le_trans (by norm_num) h) : ¬ d < 20), if_neg (not_lt.mpr (le_trans (by norm_num) h) : ¬ d < 40), if_neg (not_lt.mpr (le_trans (by norm_num) h) : ¬ d < 60), if_neg (not_lt.mpr (le_trans (by norm_num) h) : ¬ d < 80), if_neg (not_lt.mpr (le_trans (by norm_num) h) : ¬ d < 160), if_neg (not_lt.mpr (le_trans (by norm_num) h) : ¬ d < 320), if_neg (not_lt.mpr (le_trans (by norm_num) h) : ¬ d < 640), if_neg (not_lt.mpr (le_trans (by norm_num) h) : ¬ d < 1280), if_neg (not_lt.mpr (le_trans (by norm_num) h) : ¬ d < 2560), if_neg (not_lt.mpr (le_trans (by norm_num) h) : ¬ d < 5120), if_neg (not_lt.mpr (le_trans (by norm_num) h) : ¬ d < 10240), if_neg (not_lt.mpr (le_trans (by norm_num) h) : ¬ d < 20480)]

/-- Witness for C7 at mean depth 50000. -/
theorem c7_deep_depth_returns_finest_witness :
    (20480 : ℚ) ≤ 50000 ∧ calculate_resolution (some 50000) = .ok 0.5 :=
  ⟨by norm_num, c7_deep_depth_returns_finest 50000 (by norm_num)⟩

/-- Counterexample to C7 as stated: at mean depth 30000 the selector
returns the finest resolution 0.5, not the coarsest (1024.0) or any other
clamped value. -/
theorem c7_counterexample :
    calculate_resolution (some 30000) = .ok 0.5 ∧ (0.5 : ℚ) ≠ 1024.0 := by
  constructor
  · rw [calculate_resolution_eval]
    norm_num [resolution_band]
  · norm_num

theorem spec_batches_of_short {α : Type} (size : ℕ) (l : List α) (hl : l.length ≤ size) :
    spec_batches_of size l = if l.isEmpty then [] else [l] := by
  rcases l with _ | ⟨a, rest⟩
  · simp [spec_batches_of]
  · rw [spec_batches_of]
    have h1 : rest.length ≤ size - 1 := by simp at hl; omega
    rw [List.take_of_length_le h1, List.drop_eq_nil_of_le h1]
    simp [spec_batches_of]

theorem spec_batches_of_append_full {α : Type} (size : ℕ) (l rest : List α)
    (hl : l.length = size) (hs : 1 ≤ size) :
    spec_batches_of size (l ++ rest) = l :: spec_batches_of size rest := by
  rcases l with _ | ⟨a, l2⟩
  · simp at hl; omega
  · have hl2 : l2.length = size - 1 := by simp at hl; omega
    rw [List.cons_append, spec_batches_of]
    rw [show (l2 ++ rest).take (size - 1) = l2 from by rw [← hl2]; exact List.take_left l2 rest]
    rw [show (l2 ++ rest).drop (size - 1) = rest from by rw [← hl2]; exact List.drop_left l2 rest]

/-- The batching loop of `_grid_parallel` produces exactly the consecutive
chunks, of size equal to the worker-core count, of the occupied-slot list. -/
theorem grid_parallel_go_spec {α : Type} (w : ℕ) (hw : 1 ≤ w) :
    ∀ (tiles : List (Option α)) (cur : List α), cur.length < w →
      grid_parallel_go w tiles cur cur.length =
        spec_batches_of w (cur ++ tiles.filterMap id) := by
  intro tiles
  induction tiles with
  | nil =>
    intro cur hcur
    rw [grid_parallel_go]
    rw [List.filterMap_nil, List.append_nil, spec_batches_of_short w cur (by omega)]
  | cons hd rest ih =>
    intro cur hcur
    cases hd with
    | none =>
      rw [grid_parallel_go,
        show List.filterMap id (none :: rest) = List.filterMap id rest from by simp]
      exact ih cur hcur
    | some t =>
      rw [grid_parallel_go,
        show List.filterMap id (some t :: rest) = t :: List.filterMap id rest from by simp]
      by_cases hfull : cur.length + 1 = w
      · rw [if_pos hfull]
        have h0 : ([] : List α).length < w := by simp only [List.length_nil]; omega
        have ih0 := ih [] h0
        simp only [List.length_nil, List.nil_append] at ih0
        rw [ih0]
        have hsplit : cur ++ t :: rest.filterMap id = (cur ++ [t]) ++ rest.filterMap id := by
          simp
        rw [hsplit,
          spec_batches_of_append_full w (cur ++ [t]) (rest.filterMap id) (by simp; omega) hw]
      · rw [if_neg hfull]
        have hlen : (cur ++ [t]).length < w := by simp; omega
        have ihc := ih (cur ++ [t]) hlen
        rw [show (cur ++ [t]).length = cur.length + 1 from by simp] at ihc
        rw [ihc]
        simp

theorem spec_batches_of_length_le {α : Type} (w : ℕ) (hw : 1 ≤ w) :
    ∀ (n : ℕ) (l : List α), l.length ≤ n → ∀ b ∈ spec_batches_of w l, b.length ≤ w := by
  intro n
  induction n with
  | zero =>
    intro l hl
    have hnil : l = [] := List.eq_nil_of_length_eq_zero (by omega)
    subst hnil
    simp [spec_batches_of]
  | succ n ih =>
    intro l hl
    rcases l with _ | ⟨a, rest⟩
    · simp [spec_batches_of]
    · rw [spec_batches_of]
      rintro b hb
      rcases List.mem_cons.mp hb with rfl | hb2
      · have := List.length_take (w - 1) rest
        simp only [List.length_cons]
        omega
      · refine ih (rest.drop (w - 1)) ?_ b hb2
        simp only [List.length_drop]
        simp only [List.length_cons] at hl
        omega

/-- Claim C2 (amended): in parallel mode the occupied slots are partitioned,
in order, into fixed-size batches whose size is the worker-core count
`len(client.ncores())` — NOT the constant 8, which appears only in the
`total_runs` figure printed for progress (`ceil(total_slot_count / 8)`).
Each batch has at most worker-count many slots.  The dispatcher still
submits one batch at a time, blocking on the progress display between
batches. -/
theorem c2_parallel_batches_by_worker_count {α : Type} (tiles : List (Option α)) (w : ℕ)
    (hw : 1 ≤ w) :
    grid_parallel_batches tiles w = spec_batches_of w (tiles.filterMap id) ∧
    ∀ b ∈ grid_parallel_batches tiles w, b.length ≤ w := by
  have h := grid_parallel_go_spec w hw tiles [] (by simp only [List.length_nil]; omega)
  simp only [List.length_nil, List.nil_append] at h
  refine ⟨h, ?_⟩
  intro b hb
  rw [grid_parallel_batches, h] at hb
  exact spec_batches_of_length_le w hw (tiles.filterMap id).length _ le_rfl b hb

/-- Witness for C2: three occupied slots with a two-core worker pool are
dispatched as the chunks of size two of the occupied-slot list. -/
theorem c2_parallel_batches_witness :
    1 ≤ 2 ∧
    (grid_parallel_batches ([some 1, none, some 2, some 3] : List (Option ℕ)) 2 =
        spec_batches_of 2 ([some 1, none, some 2, some 3].filterMap id) ∧
      ∀ b ∈ grid_parallel_batches ([some 1, none, some 2, some 3] : List (Option ℕ)) 2,
        b.length ≤ 2) :=
  ⟨by norm_num,
    c2_parallel_batches_by_worker_count [some 1, none, some 2, some 3] 2 (by norm_num)⟩

/-- Counterexample to C2 as stated: with three occupied slots and a
two-core worker pool, the code forms the batches [[1, 2], [3]], not the
single batch of (at most) 8 slots [[1, 2, 3]] that it forms with an
eight-core pool — the batch size equals the worker count and is not 8, and
it is not independent of the worker count. -/
theorem c2_counterexample :
    grid_parallel_batches ([some 1, some 2, some 3] : List (Option ℕ)) 2 = [[1, 2], [3]] ∧
    grid_parallel_batches ([some 1, some 2, some 3] : List (Option ℕ)) 8 = [[1, 2, 3]] ∧
    ([[1, 2], [3]] : List (List ℕ)) ≠ [[1, 2, 3]] :=
  ⟨rfl, rfl, by decide⟩

theorem grid_regular_go_calls {α : Type} (tile_grid : α → String → ℚ → Bool → ℚ)
    (algorithm : String) (clear_existing : Bool) :
    ∀ (tiles : List (Option α)) (resolution : ℚ) (resolutions : List ℚ),
      (grid_regular_go tile_grid algorithm clear_existing tiles resolution resolutions).2 =
        spec_chained_calls tile_grid algorithm clear_existing (tiles.filterMap id) resolution := by
  intro tiles
  induction tiles with
  | nil =>
    intro res acc
    simp [grid_regular_go, spec_chained_calls]
  | cons hd rest ih =>
    intro res acc
    cases hd with
    | none =>
      rw [grid_regular_go,
        show List.filterMap id (none :: rest) = List.filterMap id rest from by simp]
      exact ih res acc
    | some t =>
      rw [grid_regular_go,
        show List.filterMap id (some t :: rest) = t :: List.filterMap id rest from by simp,
        spec_chained_calls]
      simp only []
      rw [ih]

/-- Claim C3 (amended): serial mode visits the occupied slots in flattened
row-major order and passes each one the constant `algorithm` and
`clear_existing`, but the `resolution` argument is threaded: the first
occupied slot receives the resolution passed to `_grid_regular`, and every
later occupied slot receives the resolution REPORTED by the previous
occupied slot (the loop rebinds `resolution = tile.grid(...)`), not
necessarily the originally passed value. -/
theorem c3_serial_resolution_is_chained {α : Type} (tiles : List (Option α))
    (tile_grid : α → String → ℚ → Bool → ℚ) (algorithm : String) (resolution : ℚ)
    (clear_existing : Bool) :
    (grid_regular tiles tile_grid algorithm resolution clear_existing).2 =
      spec_chained_calls tile_grid algorithm clear_existing (tiles.filterMap id) resolution := by
  rw [grid_regular]
  exact grid_regular_go_calls tile_grid algorithm clear_existing tiles resolution []

/-- Counterexample to C3 as stated: with a first tile whose grid operation
reports resolution 2 (as the external Tile interface permits — a nested
grid may report a different resolution than requested), the second occupied
slot is invoked with resolution 2, not with the passed resolution 1: the
argument triples are not all equal to ("mean", 1, false). -/
theorem c3_counterexample :
    (grid_regular ([some 0, some 1] : List (Option ℕ))
        (fun t _ r _ => if t = 0 then 2 else r) "mean" 1 false).2 =
      [("mean", 1, false), ("mean", 2, false)] ∧ (2 : ℚ) ≠ 1 :=
  ⟨rfl, by norm_num⟩

/-- Claim C4 (amended): after staging a batch, `mean_depth` is the
arithmetic mean of the `z` values whenever SOME `z` value is nonzero;
it is left undefined (`None`) when the batch is absent or when EVERY `z`
value equals zero (which includes the empty batch, but also nonempty
all-zero batches, because the code tests `not data['z'].any()`); and when
the `z` column is absent the computation raises `KeyError` instead of
leaving `mean_depth` undefined. -/
theorem c4_mean_depth_behavior :
    update_mean_depth none = .ok none ∧
    (∀ zs : List ℚ, (∃ z ∈ zs, z ≠ 0) →
      update_mean_depth (some (PointData.mk (some zs))) =
        .ok (some (zs.sum / (zs.length : ℚ)))) ∧
    (∀ zs : List ℚ, (∀ z ∈ zs, z = 0) →
      update_mean_depth (some (PointData.mk (some zs))) = .ok none) ∧
    update_mean_depth (some (PointData.mk none)) = .error .keyError := by
  refine ⟨rfl, ?_, ?_, rfl⟩
  · intro zs h
    have hany : (zs.any fun z => decide (z ≠ 0)) = true := by
      simp only [List.any_eq_true, decide_eq_true_eq]
      exact h
    simp [update_mean_depth, hany]
    exact h
  · intro zs h
    have hany : (zs.any fun z => decide (z ≠ 0)) = false := by
      simp only [List.any_eq_false, decide_eq_true_eq]
      intro z hz
      exact fun hne => hne (h z hz)
    simp [update_mean_depth, hany]
    exact h

/-- Witness for C4 at the batch with depths 1 and 3: mean depth 2. -/
theorem c4_mean_depth_behavior_witness :
    (∃ z ∈ ([1, 3] : List ℚ), z ≠ 0) ∧
    update_mean_depth (some (PointData.mk (some [1, 3]))) =
      .ok (some (([1, 3] : List ℚ).sum / ((([1, 3] : List ℚ).length : ℕ) : ℚ))) ∧
    ([1, 3] : List ℚ).sum / ((([1, 3] : List ℚ).length : ℕ) : ℚ) = 2 :=
  ⟨⟨1, by norm_num, by norm_num⟩,
    c4_mean_depth_behavior.2.1 [1, 3] ⟨1, by norm_num, by norm_num⟩,
    by norm_num⟩

/-- Counterexample to C4 as stated: the nonempty batch with depth column
present and all depths zero leaves `mean_depth` undefined (`None`), even
though the claim says `mean_depth` is then the arithmetic mean 0. -/
theorem c4_counterexample :
    update_mean_depth (some (PointData.mk (some [0, 0]))) = .ok none ∧
    (some [(0 : ℚ), 0]).isSome = true ∧ ([(0 : ℚ), 0] ≠ []) :=
  ⟨rfl, rfl, by simp⟩

theorem v_remove_slot_isNone_of_leaf_only (slot : Option VSlot) (container_name : String)
    (h : ∀ s, slot = some s → ∃ tile, s = VSlot.leaf tile ∧ ∀ c ∈ tile, c = container_name) :
    (v_remove_slot slot container_name).isNone = true := by
  cases slot with
  | none => rfl
  | some s =>
    obtain ⟨tile, rfl, htile⟩ := h s rfl
    have hfil : tile_remove_points tile container_name = [] := by
      rw [tile_remove_points]
      rw [List.filter_eq_nil_iff]
      intro a ha
      simp only [bne_iff_ne, ne_eq, not_not]
      exact htile a ha
    rw [v_remove_slot]
    simp only [vslot_remove_points, hfil, vslot_is_empty, tile_is_empty, List.isEmpty_nil,
      if_pos]
    rfl

/-- Claim C5 (amended): `remove_points` is a no-op for an unregistered
name; otherwise it drops the registry entry and forwards the removal to
every occupied slot, nulling slots left empty, releasing the lattice
exactly when every slot becomes empty.  When every occupied slot is a LEAF
tile (the `SRGrid` case) and the removed container was the only one
registered, the lattice is released — but an occupied NESTED `BathyGrid`
slot (the `VRGridTile` case) whose registry does not contain the name (as
in every reachable state, since nested `_update_metadata` is the base
`pass`) survives removal untouched, keeps its points, and prevents the
release: the grid does NOT return to the no-data state. -/
theorem c5_remove_points_vr_behavior (g : VGrid) (container_name : String) :
    (container_name ∉ g.container → v_remove_points g container_name = g) ∧
    (container_name ∈ g.container →
      (v_remove_points g container_name).container = g.container.erase container_name ∧
      (∀ l, g.tiles = some l →
        (v_remove_points g container_name).tiles = none ∨
        (v_remove_points g container_name).tiles =
          some (l.map (fun slot => v_remove_slot slot container_name))) ∧
      ((∀ c ∈ g.container, c = container_name) →
        (∀ l, g.tiles = some l → ∀ slot ∈ l, ∀ s, slot = some s →
          ∃ tile, s = VSlot.leaf tile ∧ ∀ c ∈ tile, c ∈ g.container) →
        (v_remove_points g container_name).tiles = none) ∧
      (∀ l, g.tiles = some l →
        ∀ c t, some (VSlot.nested c t) ∈ l →
          container_name ∉ c →
          rgrid_is_empty (RGrid.mk c t) = false →
          (v_remove_points g container_name).tiles ≠ none)) := by
  constructor
  · intro h
    rw [v_remove_points, if_neg h]
  · intro hmem
    by_cases h1 : vgrid_is_empty (VGrid.mk (g.container.erase container_name) g.tiles)
    · have hres : v_remove_points g container_name =
          VGrid.mk (g.container.erase container_name) none := by
        rw [v_remove_points, if_pos hmem]
        simp only [h1, Bool.not_true, Bool.false_eq_true, if_false, if_pos]
      rw [hres]
      refine ⟨rfl, ?_, ?_, ?_⟩
      · intro l hl
        exact Or.inl rfl
      · intro _ _
        rfl
      · intro l hl c t hslot hnc hne
        exfalso
        rw [vgrid_is_empty, hl] at h1
        rw [List.all_eq_true] at h1
        have := h1 (some (VSlot.nested c t)) hslot
        simp at this
    · set mapped : VGrid := VGrid.mk (g.container.erase container_name)
        (g.tiles.map (fun l => l.map (fun slot => v_remove_slot slot container_name)))
        with hmapped
      have hres : v_remove_points g container_name =
          if vgrid_is_empty mapped then VGrid.mk mapped.container none else mapped := by
        rw [v_remove_points, if_pos hmem]
        simp only [h1, Bool.not_false, if_pos, hmapped]
      have hsurvive : ∀ l, g.tiles = some l →
          ∀ c t, some (VSlot.nested c t) ∈ l → container_name ∉ c →
          rgrid_is_empty (RGrid.mk c t) = false →
          vgrid_is_empty mapped = false := by
        intro l hl c t hslot hnc hne
        have hnoop : vslot_remove_points (VSlot.nested c t) container_name =
            VSlot.nested c t := by
          rw [vslot_remove_points]
          rw [show remove_points (RGrid.mk c t) container_name = RGrid.mk c t from by
            rw [remove_points, if_neg hnc]]
        have hkept : v_remove_slot (some (VSlot.nested c t)) container_name =
            some (VSlot.nested c t) := by
          rw [v_remove_slot]
          simp only [hnoop, vslot_is_empty, hne, Bool.false_eq_true, if_false]
        rw [hmapped, vgrid_is_empty, hl]
        simp only [Option.map_some']
        rw [Bool.eq_false_iff]
        intro hall
        rw [List.all_eq_true] at hall
        have hmem2 : some (VSlot.nested c t) ∈
            l.map (fun slot => v_remove_slot slot container_name) := by
          rw [List.mem_map]
          exact ⟨some (VSlot.nested c t), hslot, hkept⟩
        have := hall _ hmem2
        simp at this
      by_cases h2 : vgrid_is_empty mapped
      · rw [hres, if_pos h2]
        refine ⟨rfl, ?_, ?_, ?_⟩
        · intro l hl
          exact Or.inl rfl
        · intro _ _
          rfl
        · intro l hl c t hslot hnc hne
          exact absurd h2 (by rw [hsurvive l hl c t hslot hnc hne]; simp)
      · rw [hres, if_neg h2]
        refine ⟨rfl, ?_, ?_, ?_⟩
        · intro l hl
          right
          show (Option.map (fun l => List.map (fun slot => v_remove_slot slot container_name) l)
            g.tiles) = some (l.map (fun slot => v_remove_slot slot container_name))
          rw [hl]
          rfl
        · intro hall hinv
          exfalso
          apply h2
          rcases ht : g.tiles with _ | l
          · rw [vgrid_is_empty, hmapped, ht]
            rfl
          · rw [vgrid_is_empty, hmapped, ht]
            show ((l.map (fun slot => v_remove_slot slot container_name)).all
              fun slot => slot.isNone) = true
            rw [List.all_eq_true]
            intro slot' hslot'
            rcases List.mem_map.mp hslot' with ⟨slot, hslot, rfl⟩
            refine v_remove_slot_isNone_of_leaf_only slot container_name ?_
            intro s hs
            obtain ⟨tile, rfl, htile⟩ := hinv l ht slot hslot s hs
            exact ⟨tile, rfl, fun c hc => hall c (htile c hc)⟩
        · intro l hl c t hslot hnc hne
          show (VGrid.mk (g.container.erase container_name)
            (g.tiles.map (fun l => l.map (fun slot => v_remove_slot slot container_name)))).tiles
              ≠ none
          rw [hl]
          simp

/-- Witness for C5: removing the only registered container "a" from an
all-leaf grid with one occupied slot releases the lattice. -/
theorem c5_remove_points_vr_behavior_witness :
    ("a" ∈ (VGrid.mk ["a"] (some [some (VSlot.leaf ["a"]), none])).container) ∧
    (v_remove_points (VGrid.mk ["a"] (some [some (VSlot.leaf ["a"]), none])) "a").tiles =
      none := by
  refine ⟨by simp, ?_⟩
  refine (((c5_remove_points_vr_behavior
    (VGrid.mk ["a"] (some [some (VSlot.leaf ["a"]), none])) "a").2 (by simp)).2.2.1) ?_ ?_
  · intro c hc
    simpa using hc
  · intro l hl slot hs s hchk
    cases hl
    rcases List.mem_cons.mp hs with rfl | hs2
    · cases hchk
      exact ⟨["a"], rfl, by intro c hc; simpa using hc⟩
    · rcases List.mem_singleton.mp hs2 with rfl
      exact absurd hchk (by simp)

/-- Counterexample to C5 as stated: a `VRGridTile` whose only registered
container is "a" and whose single occupied slot is a nested `BathyGrid`
(registry empty, as the base `_update_metadata` pass leaves it) holding
the points of "a".  Removing "a" drops the top registry entry but the
forwarded removal no-ops on the nested grid, the slot keeps its points and
is not nulled, and the lattice is NOT released — the grid does not return
to the uninitialized no-data state. -/
theorem c5_counterexample :
    ((VGrid.mk ["a"] (some [some (VSlot.nested [] (some [some ["a"]]))])).container = ["a"]) ∧
    (v_remove_points
        (VGrid.mk ["a"] (some [some (VSlot.nested [] (some [some ["a"]]))])) "a").tiles =
      some [some (VSlot.nested [] (some [some ["a"]]))] ∧
    (v_remove_points
        (VGrid.mk ["a"] (some [some (VSlot.nested [] (some [some ["a"]]))])) "a").container =
      [] :=
  ⟨rfl, by decide, by decide⟩

theorem resolution_check_ambiguous_iff (g : LGrid) (resolution : Option ℚ)
    (hg : no_grid g = false) :
    (get_layer_by_name_resolution g resolution = .error .ambiguousResolution ↔
      py_falsy_res resolution = true ∧ 1 < g.resolutions.length) := by
  rw [get_layer_by_name_resolution, hg]
  simp only [Bool.false_eq_true, if_false]
  by_cases hf : py_falsy_res resolution
  · rw [if_pos hf]
    by_cases hlen : 1 < g.resolutions.length
    · rw [if_pos hlen]
      simp [hf, hlen]
    · rw [if_neg hlen]
      rcases hres : g.resolutions with _ | ⟨r, rest⟩
      · rw [hres] at hlen
        simp [hf, hlen]
      · rw [hres] at hlen
        simp [hf]
        simp only [List.length_cons] at hlen
        exact List.eq_nil_of_length_eq_zero (by omega)
  · rw [if_neg hf]
    simp [hf]

theorem surf_resolution_ambiguous_iff (g : LGrid) (resolution : Option ℚ)
    (hg : no_grid g = false) :
    (return_surf_xyz_resolution g resolution = .error .ambiguousResolution ↔
      1 < g.resolutions.length) := by
  have hinner : get_layer_by_name_resolution g none =
      (if 1 < g.resolutions.length then (.error .ambiguousResolution : Except Fault ℚ)
       else
         match g.resolutions with
         | [] => .error .indexError
         | r :: _ => .ok r) := by
    rw [get_layer_by_name_resolution, hg]
    rfl
  rw [return_surf_xyz_resolution, hg]
  simp only [Bool.false_eq_true, if_false]
  by_cases hlen : 1 < g.resolutions.length
  · rw [if_pos hlen] at hinner
    by_cases hf : py_falsy_res resolution
    · rw [if_pos hf, if_pos hlen]
      simp [hlen]
    · rw [if_neg hf, hinner]
      simp [hlen]
  · rw [if_neg hlen] at hinner
    rcases hres : g.resolutions with _ | ⟨r, rest⟩
    · rw [hres] at hinner hlen
      by_cases hf : py_falsy_res resolution
      · rw [if_pos hf]
        simp
      · rw [if_neg hf, hinner]
        simp
    · rw [hres] at hinner hlen
      by_cases hf : py_falsy_res resolution
      · rw [if_pos hf, if_neg hlen, hinner]
        simp only [List.length_cons] at hlen
        simp
        exact List.eq_nil_of_length_eq_zero (by omega)
      · rw [if_neg hf, hinner]
        simp only [List.length_cons] at hlen
        simp
        exact List.eq_nil_of_length_eq_zero (by omega)

/-- Claim C6 (amended): on a gridded, non-empty grid,
`get_layer_by_name` raises AmbiguousResolutionFault exactly when its
`resolution` argument is FALSY — omitted (`None`) or numerically zero —
while more than one resolution is present (so an explicit 0 triggers it,
because the code tests `if not resolution:`); but `return_surf_xyz`
raises AmbiguousResolutionFault exactly when more than one resolution is
present, REGARDLESS of the resolution argument — even an explicitly named
nonzero resolution fails, because line 548 calls `get_layer_trimmed(layer)`
without forwarding the resolution, and the inner `get_layer_by_name` then
runs with an omitted resolution. -/
theorem c6_ambiguous_resolution_iff (g : LGrid) (resolution : Option ℚ)
    (hg : no_grid g = false) :
    (get_layer_by_name_resolution g resolution = .error .ambiguousResolution ↔
      py_falsy_res resolution = true ∧ 1 < g.resolutions.length) ∧
    (return_surf_xyz_resolution g resolution = .error .ambiguousResolution ↔
      1 < g.resolutions.length) :=
  ⟨resolution_check_ambiguous_iff g resolution hg,
    surf_resolution_ambiguous_iff g resolution hg⟩

/-- Witness for C6 on a gridded grid with two resolutions and an explicit
nonzero resolution argument: `get_layer_by_name`'s check does not raise
the ambiguity fault, `return_surf_xyz` does. -/
theorem c6_ambiguous_resolution_iff_witness :
    no_grid (LGrid.mk (some [some (LTile.mk ["depth"])]) [0.5, 1.0]) = false ∧
    ((get_layer_by_name_resolution (LGrid.mk (some [some (LTile.mk ["depth"])]) [0.5, 1.0])
        (some 1) = .error .ambiguousResolution ↔
      py_falsy_res (some 1) = true ∧
        1 < (LGrid.mk (some [some (LTile.mk ["depth"])]) [0.5, 1.0]).resolutions.length) ∧
     (return_surf_xyz_resolution (LGrid.mk (some [some (LTile.mk ["depth"])]) [0.5, 1.0])
        (some 1) = .error .ambiguousResolution ↔
      1 < (LGrid.mk (some [some (LTile.mk ["depth"])]) [0.5, 1.0]).resolutions.length)) :=
  ⟨rfl,
    c6_ambiguous_resolution_iff (LGrid.mk (some [some (LTile.mk ["depth"])]) [0.5, 1.0])
      (some 1) rfl⟩

/-- Counterexample to C6 as stated: on a gridded grid with two resolutions,
`return_surf_xyz` with the explicitly named NONZERO resolution 1.0 still
raises AmbiguousResolutionFault (line 548 drops the argument), and
`get_layer_by_name` with the explicitly named resolution 0 raises it too
(`if not resolution:` treats 0 like an omitted argument) — so naming a
resolution explicitly does not prevent the ambiguity fault. -/
theorem c6_counterexample :
    return_surf_xyz_resolution (LGrid.mk (some [some (LTile.mk ["depth"])]) [0.5, 1.0]) (some 1)
      = .error .ambiguousResolution ∧
    (some (1 : ℚ)).isSome = true ∧ (1 : ℚ) ≠ 0 ∧
    get_layer_by_name_resolution (LGrid.mk (some [some (LTile.mk ["depth"])]) [0.5, 1.0]) (some 0)
      = .error .ambiguousResolution :=
  ⟨rfl, rfl, by norm_num, rfl⟩

/-- Claim C9 (amended): `return_layer_names` never returns the actual layer
names.  It raises `TypeError` (from `list(tile.cells.keys)`, a bound method
passed to `list`) exactly when the FIRST occupied slot is gridded (has a
nonempty `cells` mapping); it returns the empty list when there is no
occupied slot or when the first occupied slot is ungridded — in the latter
case even if a LATER occupied slot is gridded, because the `no_grid` check
inspects only the first occupied slot. -/
theorem c9_return_layer_names_behavior (g : LGrid) :
    return_layer_names g =
      (match g.tiles with
       | none => Except.ok []
       | some l =>
         match (l.filterMap id).head? with
         | none => Except.ok []
         | some tile =>
           if tile.cells.isEmpty then Except.ok [] else Except.error Fault.typeError) := by
  rcases g with ⟨tiles, ress⟩
  rcases tiles with _ | l
  · rfl
  · rw [return_layer_names, no_grid]
    rcases h : (l.filterMap id).head? with _ | tile
    · simp [h]
    · cases hc : tile.cells.isEmpty with
      | false => simp [hc, h]
      | true => simp [hc, h]

/-- Counterexample to C9 as stated: a grid whose first occupied slot is
ungridded and whose second occupied slot IS gridded returns the empty list
instead of raising `TypeError`, although it contains an occupied, gridded
slot. -/
theorem c9_counterexample :
    return_layer_names (LGrid.mk (some [some (LTile.mk []), some (LTile.mk ["depth"])]) [])
      = .ok [] ∧
    (([some (LTile.mk []), some (LTile.mk ["depth"])].filterMap id).any
        (fun t => !t.cells.isEmpty)) = true :=
  ⟨rfl, rfl⟩

theorem lookup_dict_set (k : String) (v : List String) :
    ∀ m : List (String × List String), (dict_set m k v).lookup k = some v := by
  intro m
  induction m with
  | nil =>
    simp [dict_set, List.lookup]
  | cons p rest ih =>
    rcases p with ⟨p1, p2⟩
    by_cases hp : p1 = k
    · rw [dict_set, if_pos hp]
      simp [List.lookup]
    · rw [dict_set, if_neg hp]
      have hbeq : (k == p1) = false := by
        simp only [beq_eq_false_iff_ne, ne_eq]
        exact fun hk => hp hk.symm
      simp only [List.lookup, hbeq]
      exact ih

/-- Claim C8: whenever `_update_metadata` raises MetadataConflictFault (a
coordinate-system or vertical-reference mismatch), the container registry
has ALREADY been mutated with the new entry — the state observed after the
fault contains the new container under its name.  Registry update and
metadata validation are not atomic. -/
theorem c8_registry_mutated_before_conflict (st : MetaState) (container_name : String)
    (file_list : Option (List String)) (epsg : Option Int) (vertical_reference : Option String)
    (h : (sr_update_metadata st container_name file_list epsg vertical_reference).2 =
      some .metadataConflict) :
    ((sr_update_metadata st container_name file_list epsg vertical_reference).1.container.lookup
        container_name) =
      some (if py_truthy_file_list file_list then file_list.getD [] else ["Unknown"]) := by
  have hcont : (sr_update_metadata st container_name file_list epsg
        vertical_reference).1.container =
      dict_set st.container container_name
        (if py_truthy_file_list file_list then file_list.getD [] else ["Unknown"]) := by
    simp only [sr_update_metadata]
    by_cases ht : py_truthy_int st.epsg
    · rw [if_pos ht]
      cases epsg with
      | none => rfl
      | some e =>
        simp only [py_int]
        by_cases hne : st.epsg ≠ some e
        · rw [if_pos hne]
        · rw [if_neg hne]
          by_cases hv : py_truthy_str st.vertical_reference = true ∧
              st.vertical_reference ≠ vertical_reference
          · rw [if_pos hv]
          · rw [if_neg hv]
    · rw [if_neg ht]
      by_cases hv : py_truthy_str st.vertical_reference = true ∧
          st.vertical_reference ≠ vertical_reference
      · rw [if_pos hv]
      · rw [if_neg hv]
        cases epsg with
        | none => rfl
        | some e => rfl
  rw [hcont]
  exact lookup_dict_set container_name _ st.container

/-- Witness for C8: adding container "c" with epsg 26918 to a grid whose
epsg is already 26917 raises the conflict fault, and the registry observed
afterwards contains the new entry for "c". -/
theorem c8_registry_mutated_before_conflict_witness :
    (sr_update_metadata (MetaState.mk [] (some 26917) none) "c" none (some 26918) none).2 =
      some .metadataConflict ∧
    ((sr_update_metadata (MetaState.mk [] (some 26917) none) "c" none
        (some 26918) none).1.container.lookup "c") =
      some (if py_truthy_file_list none then (none : Option (List String)).getD []
        else ["Unknown"]) :=
  ⟨rfl, c8_registry_mutated_before_conflict (MetaState.mk [] (some 26917) none) "c" none
    (some 26918) none rfl⟩

/-- Claim C10: calling `add_points` (hence `_update_metadata`) with `crs`
omitted or `None` raises `TypeError` from `int(None)` — on a first add
(no epsg established yet) and on later adds whose other metadata matches
(and, when the stored epsg is truthy, even before the vertical-reference
check, regardless of it).  The nominally optional `crs` parameter is in
fact required. -/
theorem c10_none_crs_raises_type_error (st : MetaState) (container_name : String)
    (file_list : Option (List String)) (vertical_reference : Option String)
    (h : py_truthy_str st.vertical_reference = false ∨
      st.vertical_reference = vertical_reference) :
    (sr_update_metadata st container_name file_list none vertical_reference).2 =
      some .typeError := by
  simp only [sr_update_metadata]
  by_cases ht : py_truthy_int st.epsg
  · rw [if_pos ht]
    rfl
  · rw [if_neg ht]
    have hv : ¬ (py_truthy_str st.vertical_reference = true ∧
        st.vertical_reference ≠ vertical_reference) := by
      rcases h with h | h
      · intro hc
        rw [h] at hc
        exact absurd hc.1 (by simp)
      · intro hc
        exact hc.2 h
    rw [if_neg hv]
    rfl

/-- Witness for C10: the first add on a fresh grid with `crs = None` raises
`TypeError`. -/
theorem c10_none_crs_raises_type_error_witness :
    (py_truthy_str (MetaState.mk [] none none).vertical_reference = false ∨
      (MetaState.mk [] none none).vertical_reference = none) ∧
    (sr_update_metadata (MetaState.mk [] none none) "c" none none none).2 = some .typeError :=
  ⟨Or.inl rfl, c10_none_crs_raises_type_error (MetaState.mk [] none none) "c" none none
    (Or.inl rfl)⟩

end Bathygrid
